import Mathlib

/-!
Verification development for the SpotifyDJ core (brain.py, preferences.py,
spotify_client.py), as a shallow embedding in Lean 4.

Modelling conventions:
* Python strings are Lean `String`; Python floats are modelled as `ℚ`
  (the claims under scrutiny are about the arithmetic formulas, and the
  source only uses +, *, -, / and comparisons).
* External services (Gemini, the local LLM, `json.loads`, the Spotify HTTP
  API, the embedding model, `random.shuffle`, wall-clock time) are supplied
  by explicit environment records; a call that can raise is given an
  `Except String` outcome chosen by the environment, and the embedding
  threads those outcomes through exactly the `try/except` structure of the
  source.
* `random.shuffle` is modelled as an environment-chosen permutation.
* Mutable session / preference state is passed explicitly.
-/

/-! ### Python string / list primitives used by the source -/

/-- Python `str.lower` (adequate for the ASCII stop-word set used here). -/
def pyLower (s : String) : String := String.mk (s.toList.map Char.toLower)

/-- Worker for `pySplitWs`: accumulate the current word (reversed) and cut
at whitespace, never emitting empty words. -/
def splitWsAux : List Char → List Char → List String
  | [], acc => if acc = [] then [] else [String.mk acc.reverse]
  | c :: cs, acc =>
    if c.isWhitespace then
      if acc = [] then splitWsAux cs []
      else String.mk acc.reverse :: splitWsAux cs []
    else splitWsAux cs (c :: acc)

/-- Python `str.split()` with no separator: split on whitespace runs,
dropping empty pieces. -/
def pySplitWs (s : String) : List String := splitWsAux s.toList []

/-- Python `str.strip()`. -/
def pyStrip (s : String) : String :=
  String.mk (((s.toList.dropWhile Char.isWhitespace).reverse.dropWhile
    Char.isWhitespace).reverse)

/-- Python `str.splitlines()` for newline-separated text. -/
def pySplitLines (s : String) : List String :=
  if s = "" then []
  else
    let parts := s.split (fun c => c = '\n')
    if s.endsWith "\n" then parts.dropLast else parts

/-- Python `a or b` on strings (empty string is falsy). -/
def pyOr (a b : String) : String := if a = "" then b else a

/-- Python list slicing `l[:n]` with an `int` bound (negative bounds count
from the end). -/
def pyTake (n : Int) (l : List α) : List α :=
  if 0 ≤ n then l.take n.toNat else l.take ((l.length : Int) + n).toNat

/-- Python `l[-n:]`: the last `n` elements. -/
def pyLastN (n : Nat) (l : List α) : List α := l.drop (l.length - n)

/-- Python `int()` truncation toward zero of a float, modelled on `ℚ`. -/
def pyTrunc (q : ℚ) : Int := if 0 ≤ q then ⌊q⌋ else -⌊-q⌋

/-- `max(1, min(100, n))`, the planner's queue-size clamp. -/
def clamp100 (n : Int) : Int := max 1 (min 100 n)

/-! ### Data model: tracks as returned by the catalog -/

/-- A track dict as the search pipeline sees it (`spotify_client.py`):
only `uri`, `id`, `name` and the ordered artist-name list are consumed.
A missing `uri` is modelled as `""` (both are falsy for the dedup guard). -/
structure Track where
  uri : String
  id : String
  name : String
  artists : List String
  deriving Repr, DecidableEq

/-- First artist name, `track["artists"][0]["name"]` with `""` default. -/
def Track.primaryArtist (t : Track) : String :=
  match t.artists with
  | [] => ""
  | a :: _ => a

/-- An album search result (`id`, `name`). -/
structure Album where
  id : String
  name : String
  deriving Repr, DecidableEq

/-- The currently-playing dict built by `get_current_track`
(keys `id`, `uri`, `name`, `artist`, `is_liked`); `item["id"]` can be
`None`, hence the `Option`. -/
structure CurrentTrack where
  id : Option String
  uri : String
  name : String
  artist : String
  is_liked : Bool
  deriving Repr, DecidableEq

/-! ### preferences.py — data model -/

/-- An entry of `liked_tracks` (`record_like`). -/
structure LikedEntry where
  id : Option String
  name : String
  artist : String
  description : String
  timestamp : String
  deriving Repr, DecidableEq

/-- An entry of `skipped_tracks` (`record_skip`). -/
structure SkippedEntry where
  id : Option String
  name : String
  artist : String
  timestamp : String
  deriving Repr, DecidableEq

/-- An entry of `request_history` (`record_request`). -/
structure RequestEntry where
  request : String
  success : Bool
  timestamp : String
  deriving Repr, DecidableEq

/-- The persisted preference document (`preferences.json`).  The artist
counters are Python dicts, modelled as insertion-ordered association
lists. -/
structure Prefs where
  liked_artists : List (String × Nat)
  skipped_artists : List (String × Nat)
  liked_tracks : List LikedEntry
  skipped_tracks : List SkippedEntry
  request_history : List RequestEntry
  taste_centroid : Option (List ℚ)
  deriving Repr, DecidableEq

/-- `_empty_prefs()`. -/
def emptyPrefs : Prefs :=
  { liked_artists := [], skipped_artists := [], liked_tracks := []
    skipped_tracks := [], request_history := [], taste_centroid := none }

/-- External collaborators of `preferences.py`: the learning-enabled config
flag, the sentence-transformers embedder (`None` when unavailable), and the
wall-clock timestamp string. -/
structure PrefEnv where
  learning : Bool
  embed : String → Option (List ℚ)
  nowIso : String

/-- `prefs[d][k] = prefs[d].get(k, 0) + 1` on an insertion-ordered dict. -/
def bumpCount (d : List (String × Nat)) (k : String) : List (String × Nat) :=
  if (d.find? (fun p => p.1 = k)).isSome then
    d.map (fun p => if p.1 = k then (p.1, p.2 + 1) else p)
  else d ++ [(k, 1)]

/-- preferences.py constants. -/
def SKIP_THRESHOLD : ℚ := 20
def MAX_HISTORY : Nat := 500
def MAX_REQUESTS : Nat := 100

/-- `_cosine_similarity`: plain dot product (vectors arrive normalized). -/
def cosine_similarity (a b : List ℚ) : ℚ :=
  ((List.zipWith (fun x y => x * y) a b).foldr (· + ·) 0)

/-- `_update_centroid`: EMA update of the taste centroid.
`alpha = 0.1` for a like, `-0.05` for a skip; first data point becomes the
centroid verbatim; an unavailable embedding leaves the profile unchanged. -/
def update_centroid (env : PrefEnv) (description : String) (positive : Bool)
    (prefs : Prefs) : Prefs :=
  match env.embed description with
  | none => prefs
  | some vec =>
    let alpha : ℚ := if positive then 1/10 else -(1/20)
    match prefs.taste_centroid with
    | none => { prefs with taste_centroid := some vec }
    | some c =>
      { prefs with taste_centroid := (some
          (List.zipWith (fun ci vi => 9/10 * ci + alpha * vi) c vec)) }

/-- `record_like(track)`: bump the artist counter, append a deduplicated
bounded history entry, then update the centroid with `positive=True`
(the background thread is modelled as running to completion). -/
def record_like (env : PrefEnv) (track : CurrentTrack) (prefs : Prefs) : Prefs :=
  if ¬env.learning then prefs
  else
    let artist := track.artist
    let p1 := { prefs with liked_artists := bumpCount prefs.liked_artists artist }
    let entry : LikedEntry :=
      { id := track.id, name := track.name, artist := artist
        description := track.name ++ " by " ++ artist, timestamp := env.nowIso }
    let p2 :=
      if entry.id ∈ p1.liked_tracks.map (fun t => t.id) then p1
      else { p1 with liked_tracks := pyLastN MAX_HISTORY (p1.liked_tracks ++ [entry]) }
    update_centroid env entry.description true p2

/-- `record_skip(track)`: bump the skip counter and append a deduplicated
bounded history entry (no centroid update on this path). -/
def record_skip (env : PrefEnv) (track : CurrentTrack) (prefs : Prefs) : Prefs :=
  if ¬env.learning then prefs
  else
    let artist := track.artist
    let p1 := { prefs with skipped_artists := bumpCount prefs.skipped_artists artist }
    let entry : SkippedEntry :=
      { id := track.id, name := track.name, artist := artist, timestamp := env.nowIso }
    if entry.id ∈ p1.skipped_tracks.map (fun t => t.id) then p1
    else { p1 with skipped_tracks := pyLastN MAX_HISTORY (p1.skipped_tracks ++ [entry]) }

/-- `record_request(request, success)`. -/
def record_request (env : PrefEnv) (request : String) (success : Bool)
    (prefs : Prefs) : Prefs :=
  if ¬env.learning then prefs
  else
    { prefs with request_history := (pyLastN MAX_REQUESTS
        (prefs.request_history ++
          [{ request := request, success := success, timestamp := env.nowIso }])) }

/-- The per-track score computed inside the `score_tracks` loop:
`(cosine_similarity(centroid, embed("name by artist")) + 1) / 2`, neutral
`0.5` when the embedding is unavailable or empty, then multiplied by `0.3`
when the primary artist is in the skipped-artists set. -/
def trackScore (env : PrefEnv) (centroid : List ℚ) (skipped : List String)
    (t : Track) : ℚ :=
  let artist := t.primaryArtist
  let desc := t.name ++ " by " ++ artist
  let base : ℚ :=
    match env.embed desc with
    | some vec => if vec.isEmpty then 1/2 else (cosine_similarity centroid vec + 1) / 2
    | none => 1/2
  if artist ∈ skipped then base * (3/10) else base

/-- `score_tracks(tracks, prefs)`: rerank by preference score.
Python's `list.sort(key=..., reverse=True)` is the (unique) stable
descending sort by the stored `_preference_score`, modelled by
`List.insertionSort` with the reflexive `≥`-on-score relation. -/
def score_tracks (env : PrefEnv) (tracks : List Track) (prefs : Prefs) : List Track :=
  if ¬env.learning then tracks
  else
    match prefs.taste_centroid with
    | none => tracks
    | some centroid =>
      if centroid.isEmpty then tracks
      else
        let skipped := prefs.skipped_artists.map (fun p => p.1)
        List.insertionSort
          (fun a b => trackScore env centroid skipped a ≥ trackScore env centroid skipped b)
          tracks

/-- `build_preference_context(prefs)`: natural-language digest injected
into the fresh-request prompt. -/
def build_preference_context (prefs : Prefs) : String :=
  let liked := List.insertionSort (fun a b : String × Nat => a.2 ≥ b.2) prefs.liked_artists
  let parts1 : List String :=
    if liked.isEmpty then []
    else ["Artists they have liked before: " ++
      String.intercalate ", " ((liked.take 10).map (fun p => p.1))]
  let skipped := List.insertionSort (fun a b : String × Nat => a.2 ≥ b.2)
    (prefs.skipped_artists.filter (fun p => p.2 ≥ 2))
  let parts := parts1 ++
    (if skipped.isEmpty then []
     else ["Artists they tend to skip: " ++
       String.intercalate ", " ((skipped.take 5).map (fun p => p.1))])
  if parts.isEmpty then ""
  else
    "\n[LISTENER HISTORY — for context only]\n"
    ++ String.intercalate "\n" (parts.map (fun p => "  " ++ p))
    ++ "\n  IMPORTANT: The user\x27s request above always takes priority over this history."
    ++ "\n  Only use this history if the request is vague or genre-neutral."
    ++ "\n  If the request specifies a genre or mood, follow it exactly — even if it"
    ++ "\n  differs from their usual taste. People intentionally listen to new things.\n"

/-! ### preferences.py — SkipDetector -/

/-- The mutable fields of `SkipDetector` relevant to `_check`. -/
structure SkipState where
  current_id : Option String
  current_track : Option CurrentTrack
  start_time : Option ℚ
  deriving Repr, DecidableEq

/-- `SkipDetector._check`, one poll tick.  Inputs: the observed
currently-playing track (`None` when nothing plays) and the current time.
Returns the track passed to `record_skip` (if any) and the new state. -/
def skip_check (obs : Option CurrentTrack) (now : ℚ) (st : SkipState) :
    Option CurrentTrack × SkipState :=
  match obs with
  | none => (none, st)
  | some track =>
    let newId := track.id
    match st.current_id with
    | none =>
      (none, { current_id := newId, current_track := some track, start_time := some now })
    | some _ =>
      if newId ≠ st.current_id then
        let elapsed := now - st.start_time.getD 0
        let emitted :=
          if elapsed < SKIP_THRESHOLD ∧ st.current_track.isSome
          then st.current_track else none
        (emitted,
          { current_id := newId, current_track := some track, start_time := some now })
      else (none, st)

/-! ### brain.py — query planner -/

/-- `STOPWORDS` (brain.py). -/
def STOPWORDS : List String :=
  ["play", "some", "me", "i", "want", "can", "you",
   "please", "listen", "to", "for", "a", "put", "on", "the",
   "something", "anything", "music", "songs", "tracks", "more"]

/-- `CANDIDATE_MODELS` (brain.py), tried top to bottom. -/
def CANDIDATE_MODELS : List String :=
  ["gemini-2.0-flash-lite", "gemini-2.0-flash-lite-001",
   "gemini-2.5-flash-lite", "gemini-2.0-flash"]

/-- `DJDirectives`.  `search_mode` and `raw_request` model the duck-typed
attributes `search_mode` / `_raw_request` read via `getattr` with defaults
in `spotify_client.py`; `brain.py` never sets them. -/
structure DJDirectives where
  reasoning : String
  queries : List String
  queue_size : Int
  search_mode : String := "track"
  raw_request : String := ""
  deriving Repr, DecidableEq

/-- `_keyword_fallback(user_prompt)`: lowercase, split on whitespace, drop
stop words, rejoin; empty result falls back to the prompt verbatim. -/
def keyword_fallback (user_prompt : String) : DJDirectives :=
  let words := pySplitWs (pyLower user_prompt)
  let cleaned := words.filter (fun w => w ∉ STOPWORDS)
  let query := pyOr (String.intercalate " " cleaned) user_prompt
  { reasoning := "No AI available. Using keyword fallback."
    queries := [query], queue_size := 40 }

/-- The three prompt templates after `.format` substitution; the claims do
not depend on the literal template text, only on which inputs reach it. -/
inductive Prompt where
  | initial (user_prompt preference_context : String)
  | continueSession (user_prompt previous_queries : String)
  | playlist (user_prompt track_list : String)
  deriving Repr, DecidableEq

/-- The typed view of `json.loads(...)` plus the `data.get(...)` /
`int(...)` accesses in `_parse_local_response`; a missing field is `none`. -/
structure LocalJson where
  reasoning : Option String
  queries : Option (List String)
  queue_size : Option Int
  deriving Repr, DecidableEq

/-- External collaborators of `brain.py`.  Each fallible backend call is an
`Except` outcome chosen by the environment: `geminiRaw` is
`client.models.generate_content` per candidate model (`.ok none` models a
response whose `.parsed` is falsy), `localRaw` is the local chat-completion
call returning the response text, `jsonLoads` is `json.loads` combined with
the `int()` coercion (any exception is `.error`). -/
structure AIEnv where
  geminiRaw : String → Prompt → Except String (Option DJDirectives)
  localBaseUrl : String
  openaiInstalled : Bool
  localRaw : Prompt → Except String String
  jsonLoads : String → Except String LocalJson
  shuffleTracks : List Track → List Track
  shuffleArtists : List String → List String
  prefs : Prefs

/-- The `text[start:end]` slice of `_parse_local_response`: from the first
brace to the last closing brace (inclusive); `None` if either is absent. -/
def firstJsonSlice (s : String) : Option String :=
  let cs := s.toList
  match cs.findIdx? (fun c => c = '\x7b'), cs.reverse.findIdx? (fun c => c = '\x7d') with
  | some start, some rback =>
    let stop := cs.length - 1 - rback
    some (String.mk ((cs.drop start).take (stop + 1 - start)))
  | _, _ => none

/-- The markdown-fence stripping step of `_parse_local_response`. -/
def stripFences (t : String) : String :=
  let lines := pySplitLines t
  let body :=
    match lines.getLast? with
    | some last => if pyStrip last = "```" then (lines.drop 1).dropLast else lines.drop 1
    | none => lines.drop 1
  String.intercalate "\n" body

/-- `_parse_local_response(text)`: strip fences, slice out the outermost
brace pair, parse, validate (`queries` must be a non-empty list), clamp
`queue_size` to `[1,100]`.  Every exception path yields `none`. -/
def parse_local_response (env : AIEnv) (text : String) : Option DJDirectives :=
  let t := pyStrip text
  let t := if t.startsWith "```" then stripFences t else t
  match firstJsonSlice t with
  | none => none
  | some body =>
    match env.jsonLoads body with
    | .error _ => none
    | .ok data =>
      let d : DJDirectives :=
        { reasoning := data.reasoning.getD "Local LLM response"
          queries := data.queries.getD []
          queue_size := data.queue_size.getD 40 }
      if d.queries.isEmpty then none
      else some { d with queue_size := clamp100 d.queue_size }

/-- `_call_local_llm(prompt)`: `None` when unconfigured, the `openai`
package is missing, or the chat-completion call raises; otherwise parse the
response text permissively. -/
def call_local_llm (env : AIEnv) (prompt : Prompt) : Option DJDirectives :=
  if env.localBaseUrl = "" then none
  else if ¬env.openaiInstalled then none
  else
    match env.localRaw prompt with
    | .error _ => none
    | .ok text => parse_local_response env text

/-- The model loop of `_call_gemini`: accept the first candidate whose
response parses and has a non-empty `queries` list (after clamping
`queue_size`); every exception and every empty result moves on. -/
def call_gemini_models (env : AIEnv) (prompt : Prompt) :
    List String → Option DJDirectives
  | [] => none
  | m :: ms =>
    match env.geminiRaw m prompt with
    | .error _ => call_gemini_models env prompt ms
    | .ok none => call_gemini_models env prompt ms
    | .ok (some d) =>
      let d := { d with queue_size := clamp100 d.queue_size }
      if d.queries.isEmpty then call_gemini_models env prompt ms else some d

/-- `_call_gemini(prompt, api_key)`. -/
def call_gemini (env : AIEnv) (prompt : Prompt) : Option DJDirectives :=
  call_gemini_models env prompt CANDIDATE_MODELS

/-- `_call_ai(prompt, api_key, local_only)`: Gemini first (key present and
not local-only), then the local LLM (when configured), else `None`. -/
def call_ai (env : AIEnv) (prompt : Prompt) (api_key : String)
    (local_only : Bool) : Option DJDirectives :=
  let fromGemini :=
    if api_key ≠ "" ∧ ¬local_only then call_gemini env prompt else none
  match fromGemini with
  | some d => some d
  | none =>
    if env.localBaseUrl ≠ "" then call_local_llm env prompt else none

/-- `get_vibe_params(user_prompt, api_key, local_only)`. -/
def get_vibe_params (env : AIEnv) (user_prompt api_key : String)
    (local_only : Bool) : DJDirectives :=
  let pref_ctx := build_preference_context env.prefs
  match call_ai env (Prompt.initial user_prompt pref_ctx) api_key local_only with
  | some d => d
  | none =>
    { reasoning := "All AI models unavailable. Using keyword fallback."
      queries := (keyword_fallback user_prompt).queries
      queue_size := 40 }

/-- `get_continue_params(original_prompt, previous_queries, ...)`. -/
def get_continue_params (env : AIEnv) (original_prompt : String)
    (previous_queries : List String) (api_key : String) (local_only : Bool) :
    DJDirectives :=
  let formatted := String.intercalate "\n" (previous_queries.map (fun q => "  - " ++ q))
  match call_ai env (Prompt.continueSession original_prompt formatted) api_key local_only with
  | some d => { d with queue_size := 40 }
  | none =>
    { reasoning := "AI unavailable for continue. Repeating original queries."
      queries := previous_queries, queue_size := 40 }

/-- Insertion-ordered deduplication of the artist names drawn from a
playlist; composed with the environment-chosen `shuffleArtists` this models
Python's (unordered) set comprehension followed by `random.shuffle`. -/
def dedupStrings : List String → List String
  | [] => []
  | s :: ss => if s ∈ ss then dedupStrings ss else s :: dedupStrings ss

/-- `get_playlist_vibe_params(playlist_tracks, user_prompt, ...)`:
prompt the AI with a shuffled ≤30-track sample; on failure fall back to up
to 8 shuffled unique playlist artist names. -/
def get_playlist_vibe_params (env : AIEnv) (playlist_tracks : List Track)
    (user_prompt api_key : String) (local_only : Bool) : DJDirectives :=
  let sample := (env.shuffleTracks playlist_tracks).take 30
  let lines := sample.map (fun t => "  - " ++ t.name ++ " — "
    ++ (match t.artists with | [] => "Unknown" | a :: _ => a))
  let track_list := String.intercalate "\n" lines
  let up := if user_prompt = "" then "Find music that fits alongside these tracks."
            else user_prompt
  match call_ai env (Prompt.playlist up track_list) api_key local_only with
  | some d => d
  | none =>
    let artists := dedupStrings
      ((playlist_tracks.filter (fun t => ¬t.artists.isEmpty)).map Track.primaryArtist)
    { reasoning := "AI unavailable. Falling back to searching for playlist artists directly."
      queries := (env.shuffleArtists artists).take 8
      queue_size := 50 }

/-! ### spotify_client.py — search pipeline and playback -/

/-- spotify_client.py constants. -/
def RESULTS_PER_QUERY : Nat := 10
def SEARCH_PAGES : Nat := 5

/-- `PlayResult`. -/
structure PlayResult where
  success : Bool
  message : String
  first_track : String := ""
  track_count : Nat := 0
  queries_run : Nat := 0
  deriving Repr, DecidableEq

/-- The session state held on `SpotifyClient` (plus the preference document
on disk, threaded explicitly because `search_and_play` writes to it via
`record_request`). -/
structure SpotState where
  last_request : String
  last_queries : List String
  played_uris : List String
  prefs : Prefs
  deriving Repr, DecidableEq

/-- External collaborators of `spotify_client.py`.  `searchPage` is one
`/v1/search` page for a (query, offset) pair — HTTP errors already yield
`[]` in `_search_page` itself; `shuffle` is `random.shuffle`, an
environment-chosen permutation; `device1`/`device2` are the results of the
two `_find_device_id` calls around the auto-launch attempt. -/
structure SearchEnv where
  tokenOk : Bool
  searchPage : String → Nat → List Track
  searchAlbums : String → List Album
  albumTracks : String → List Track
  shuffle : (l : List Track) → { l2 : List Track // l2.Perm l }
  penv : PrefEnv
  prefs : Prefs
  authOk : Except String Unit
  device1 : Option String
  ensureOpenOk : Bool
  device2 : Option String
  playback : List String → Except String Unit

/-- The page loop of `_run_single_search`: up to `SEARCH_PAGES` pages,
stopping early when a page comes back short. -/
def search_pages (env : SearchEnv) (q : String) : Nat → Nat → List Track
  | 0, _ => []
  | fuel + 1, page =>
    let page_tracks := env.searchPage q (page * RESULTS_PER_QUERY)
    if page_tracks.length < RESULTS_PER_QUERY then page_tracks
    else page_tracks ++ search_pages env q fuel (page + 1)

/-- `_run_single_search(query)`; a token failure is caught and yields `[]`. -/
def run_single_search (env : SearchEnv) (q : String) : List Track :=
  if env.tokenOk then search_pages env q SEARCH_PAGES 0 else []

/-- The `for track in ...: if uri and uri not in seen` loop shared by both
pool builders: keep the first occurrence of each non-empty `uri`, and
return the updated `seen` set. -/
def dedupByUri : List Track → List String → List Track × List String
  | [], seen => ([], seen)
  | t :: ts, seen =>
    if t.uri ≠ "" ∧ t.uri ∉ seen then
      ((t :: (dedupByUri ts (t.uri :: seen)).1), (dedupByUri ts (t.uri :: seen)).2)
    else dedupByUri ts seen

/-- The concatenation `all_tracks` of `_build_track_pool`: every query run
sequentially, results in caller order. -/
def rawTrackResults (env : SearchEnv) (queries : List String) : List Track :=
  (queries.map (run_single_search env)).foldr (· ++ ·) []

/-- `prefs.get("taste_centroid")` truthiness. -/
def centroidTruthy (p : Prefs) : Bool :=
  match p.taste_centroid with
  | none => false
  | some c => ¬c.isEmpty

/-- `_build_track_pool(queries, target)`: concatenate, dedup by uri, then
rerank by taste profile when a centroid exists (else shuffle), truncate. -/
def build_track_pool (env : SearchEnv) (queries : List String) (target : Int) :
    List Track :=
  let unique := (dedupByUri (rawTrackResults env queries) []).1
  let reranked :=
    if centroidTruthy env.prefs then score_tracks env.penv unique env.prefs
    else (env.shuffle unique).val
  pyTake target reranked

/-- The per-query loop of `_build_album_pool`, threading the shared
`seen_album_ids` / `seen_uris` sets: for each query take the top album
result and all its tracks, falling back to a plain track search when the
album search is empty. -/
def albumPoolLoop (env : SearchEnv) :
    List String → List String → List String → List Track
  | [], _, _ => []
  | q :: qs, seenAlbums, seenUris =>
    match env.searchAlbums q with
    | [] =>
      (dedupByUri (run_single_search env q) seenUris).1
        ++ albumPoolLoop env qs seenAlbums (dedupByUri (run_single_search env q) seenUris).2
    | album :: _ =>
      if album.id = "" ∨ album.id ∈ seenAlbums then
        albumPoolLoop env qs seenAlbums seenUris
      else
        (dedupByUri (env.albumTracks album.id) seenUris).1
          ++ albumPoolLoop env qs (album.id :: seenAlbums)
              (dedupByUri (env.albumTracks album.id) seenUris).2

/-- `_build_album_pool(queries, target)`: OST pipeline, then shuffle and
truncate. -/
def build_album_pool (env : SearchEnv) (queries : List String) (target : Int) :
    List Track :=
  pyTake target (env.shuffle (albumPoolLoop env queries [] [])).val

/-- The track sequence `_build_album_pool` iterates over, before the
shared-URI deduplication: per query, either the fallback track search or
the top (not-yet-seen) album's tracks. -/
def rawAlbumStream (env : SearchEnv) : List String → List String → List Track
  | [], _ => []
  | q :: qs, seenAlbums =>
    match env.searchAlbums q with
    | [] => run_single_search env q ++ rawAlbumStream env qs seenAlbums
    | album :: _ =>
      if album.id = "" ∨ album.id ∈ seenAlbums then rawAlbumStream env qs seenAlbums
      else env.albumTracks album.id ++ rawAlbumStream env qs (album.id :: seenAlbums)

/-- `f"{first['name']} - {artist}"`, the first-track label. -/
def trackLabel (t : Track) : String :=
  t.name ++ " - " ++ (match t.artists with | [] => "Unknown" | a :: _ => a)

/-- `search_and_play(directives)`.  Returns the `PlayResult`, the URI list
submitted to `start_playback` (`[]` when no submission was attempted —
instrumentation of the external call, used by the session theorems), and
the resulting session state. -/
def search_and_play (env : SearchEnv) (directives : DJDirectives)
    (s : SpotState) : PlayResult × List String × SpotState :=
  match env.authOk with
  | .error e => ({ success := false, message := "Authentication failed: " ++ e }, [], s)
  | .ok _ =>
    let device_id :=
      match env.device1 with
      | some d => some d
      | none => if env.ensureOpenOk then env.device2 else none
    match device_id with
    | none =>
      ({ success := false
         message := "No Spotify device found. Tried to launch Spotify but no device appeared." },
       [], s)
    | some _ =>
      let queries := directives.queries
      let queue_size := clamp100 directives.queue_size
      if queries.isEmpty then
        ({ success := false, message := "No search queries were generated." }, [], s)
      else
        let pool :=
          if directives.search_mode = "album" then
            build_album_pool env queries (queue_size * 2)
          else build_track_pool env queries (queue_size * 2)
        let tracks := (pool.filter (fun t => t.uri ∉ s.played_uris)).take queue_size.toNat
        match tracks with
        | [] =>
          ({ success := false
             message := "No tracks found. Tried " ++ toString queries.length
               ++ " queries: " ++ toString queries }, [], s)
        | first :: _ =>
          let uris := tracks.map (fun t => t.uri)
          match env.playback uris with
          | .error e =>
            ({ success := false, message := "Playback error: " ++ e }, uris, s)
          | .ok _ =>
            let s2 : SpotState :=
              { s with
                last_queries := directives.queries
                played_uris := s.played_uris ++
                  (tracks.filterMap (fun t => if t.uri ≠ "" then some t.uri else none))
                prefs := record_request env.penv directives.raw_request true s.prefs }
            ({ success := true, message := "Playback started."
               first_track := trackLabel first
               track_count := tracks.length
               queries_run := queries.length }, uris, s2)

/-- The interleaving `while` loop of `search_and_play_mixed`: one element
from each list per iteration while both remain, then the longer list
drains. -/
def mixLoop : List Track → List Track → List Track
  | [], ys => ys
  | x :: xs, [] => x :: xs
  | x :: xs, y :: ys => x :: y :: mixLoop xs ys

/-- `search_and_play_mixed(playlist_tracks, directives, mix_ratio)`:
sample `int(queue_size*mix_ratio)` playlist tracks, build a search pool of
size `3×n_search` excluding playlist URIs, truncate, interleave, and start
playback.  Same instrumentation as `search_and_play`. -/
def search_and_play_mixed (env : SearchEnv) (playlist_tracks : List Track)
    (directives : DJDirectives) (ratio : ℚ) (s : SpotState) :
    PlayResult × List String × SpotState :=
  let queue_size : Int := max 1 (min 200 directives.queue_size)
  let n_playlist : Int := pyTrunc ((queue_size : ℚ) * ratio)
  let n_search : Int := queue_size - n_playlist
  let playlist_sample := pyTake n_playlist (env.shuffle playlist_tracks).val
  let playlist_uris := playlist_tracks.map (fun t => t.uri)
  let search_pool0 := build_track_pool env directives.queries (n_search * 3)
  let search_pool :=
    pyTake n_search (search_pool0.filter (fun t => t.uri ∉ playlist_uris))
  let mixed := mixLoop playlist_sample search_pool
  match mixed with
  | [] => ({ success := false, message := "No tracks found to queue." }, [], s)
  | first :: _ =>
    let device_id :=
      match env.device1 with
      | some d => some d
      | none => if env.ensureOpenOk then env.device2 else none
    match device_id with
    | none =>
      ({ success := false
         message := "No Spotify device found. Tried to launch Spotify but no device appeared." },
       [], s)
    | some _ =>
      let uris := mixed.map (fun t => t.uri)
      match env.playback uris with
      | .error e =>
        ({ success := false, message := "Playback error: " ++ e }, uris, s)
      | .ok _ =>
        let s2 : SpotState :=
          { s with
            last_queries := directives.queries
            played_uris := s.played_uris ++
              (mixed.filterMap (fun t => if t.uri ≠ "" then some t.uri else none)) }
        ({ success := true, message := "Playback started."
           first_track := trackLabel first
           track_count := mixed.length
           queries_run := directives.queries.length }, uris, s2)

/-- A session: sequential `search_and_play` calls on one client, each
observed as (success flag, URIs submitted for playback). -/
def runSession (s : SpotState) :
    List (SearchEnv × DJDirectives) → List (Bool × List String)
  | [] => []
  | (env, d) :: rest =>
    ((search_and_play env d s).1.success, (search_and_play env d s).2.1)
      :: runSession (search_and_play env d s).2.2 rest

/-! ### Concrete fixtures (used to evaluate the development on closed
inputs) -/

/-- The identity permutation, a valid `random.shuffle` outcome. -/
def idShuffle : (l : List Track) → { l2 : List Track // l2.Perm l } :=
  fun l => ⟨l, List.Perm.refl l⟩

def trackA : Track := ⟨"spotify:track:a", "a", "Alpha", ["Artist One"]⟩
def trackB : Track := ⟨"spotify:track:b", "b", "Beta", ["Artist Two"]⟩
def trackC : Track := ⟨"spotify:track:c", "c", "Gamma", ["Artist Three"]⟩
def trackD : Track := ⟨"spotify:track:d", "d", "Delta", ["Artist Four"]⟩
def trackE : Track := ⟨"spotify:track:e", "e", "Epsilon", ["Artist Five"]⟩
def trackP1 : Track := ⟨"spotify:track:p1", "p1", "Pl One", ["Pl Artist"]⟩
def trackP2 : Track := ⟨"spotify:track:p2", "p2", "Pl Two", ["Pl Artist"]⟩

def basePrefEnv : PrefEnv :=
  { learning := true, embed := fun _ => none, nowIso := "2026-01-01T00:00:00" }

/-- A catalog environment whose search results contain duplicate URIs. -/
def searchEnvA : SearchEnv :=
  { tokenOk := true
    searchPage := fun q off =>
      if off = 0 then (if q = "q1" then [trackA, trackB, trackA] else [trackB, trackC])
      else []
    searchAlbums := fun _ => [⟨"alb1", "Album One"⟩]
    albumTracks := fun _ => [trackA, trackB, trackA]
    shuffle := idShuffle
    penv := basePrefEnv
    prefs := emptyPrefs
    authOk := .ok ()
    device1 := some "dev"
    ensureOpenOk := false
    device2 := none
    playback := fun _ => .ok () }

/-- Same catalog, but the playback submission raises. -/
def searchEnvErr : SearchEnv := { searchEnvA with playback := fun _ => .error "boom" }

/-- Catalog for the mixed-interleave scenario: three distinct search
results, none of them in the playlist. -/
def searchEnvMix : SearchEnv :=
  { searchEnvA with
    searchPage := fun _ off => if off = 0 then [trackC, trackD, trackE] else [] }

/-- A single-query directive used to exercise the orchestrator. -/
def directivesQ1 : DJDirectives :=
  { reasoning := "", queries := ["q1"], queue_size := 1 }

/-- Directives sized for the mixed-interleave scenario. -/
def directivesMix : DJDirectives :=
  { reasoning := "", queries := ["q1"], queue_size := 5 }

/-- A fresh session state. -/
def s0State : SpotState :=
  { last_request := "", last_queries := [], played_uris := [], prefs := emptyPrefs }

def currentA : CurrentTrack :=
  { id := some "a", uri := "spotify:track:a", name := "Alpha"
    artist := "Artist One", is_liked := false }

def currentB : CurrentTrack :=
  { id := some "b", uri := "spotify:track:b", name := "Beta"
    artist := "Artist Two", is_liked := false }

/-- A deterministic embedder for the centroid scenario. -/
def prefEnvC6 : PrefEnv :=
  { learning := true
    embed := fun d =>
      if d = "Alpha by Artist One" then some [1]
      else if d = "Beta by Artist Two" then some [3] else none
    nowIso := "2026-01-01T00:00:00" }

/-- A profile with a one-dimensional centroid and a twice-skipped artist. -/
def prefsC8 : Prefs :=
  { emptyPrefs with taste_centroid := some [1], skipped_artists := [("Artist One", 2)] }

def prefEnvC8 : PrefEnv :=
  { learning := true
    embed := fun d => if d = "Alpha by Artist One" then some [1/2] else none
    nowIso := "2026-01-01T00:00:00" }

/-- A skip-detector baseline recorded at t = 100. -/
def stC7 : SkipState :=
  { current_id := some "a", current_track := some currentA, start_time := some 100 }

/-- A planner environment in which every AI backend interaction raises. -/
def aiEnvFail : AIEnv :=
  { geminiRaw := fun _ _ => .error "quota"
    localBaseUrl := ""
    openaiInstalled := false
    localRaw := fun _ => .error "down"
    jsonLoads := fun _ => .error "malformed"
    shuffleTracks := id
    shuffleArtists := id
    prefs := emptyPrefs }

/-- A planner environment whose first Gemini model answers with a single
empty-string query. -/
def aiEnvBlankQuery : AIEnv :=
  { aiEnvFail with
    geminiRaw := fun _ _ => .ok (some { reasoning := "r", queries := [""], queue_size := 40 }) }

/-- A planner environment whose first Gemini model answers normally. -/
def aiEnvOk : AIEnv :=
  { aiEnvFail with
    geminiRaw := fun _ _ => .ok (some { reasoning := "r", queries := ["jazz"], queue_size := 40 }) }

/-! ### Supporting lemmas: deduplication and the pool builders -/

theorem dedupByUri_mem : ∀ (l : List Track) (seen : List String) {t : Track},
    t ∈ (dedupByUri l seen).1 → t.uri ∉ seen ∧ t.uri ≠ "" := by
  intro l
  induction l with
  | nil => intro seen t h; simp [dedupByUri] at h
  | cons x xs ih =>
    intro seen t h
    simp only [dedupByUri] at h
    split at h
    case isTrue hc =>
      rcases List.mem_cons.mp h with rfl | h2
      · exact ⟨hc.2, hc.1⟩
      · have h3 := ih _ h2
        exact ⟨fun hs => h3.1 (List.mem_cons_of_mem _ hs), h3.2⟩
    case isFalse hc => exact ih _ h

theorem dedupByUri_nodup : ∀ (l : List Track) (seen : List String),
    (((dedupByUri l seen).1).map Track.uri).Nodup := by
  intro l
  induction l with
  | nil => intro seen; simp [dedupByUri]
  | cons x xs ih =>
    intro seen
    simp only [dedupByUri]
    split
    case isTrue hc =>
      simp only [List.map_cons, List.nodup_cons]
      refine ⟨fun hmem => ?_, ih _⟩
      obtain ⟨t, ht, hu⟩ := List.mem_map.mp hmem
      apply (dedupByUri_mem _ _ ht).1
      rw [hu]
      exact List.mem_cons_self _ _
    case isFalse hc => exact ih _

theorem dedupByUri_find : ∀ (l : List Track) (seen : List String) {t : Track},
    t ∈ (dedupByUri l seen).1 →
      l.find? (fun s => s.uri = t.uri) = some t := by
  intro l
  induction l with
  | nil => intro seen t h; simp [dedupByUri] at h
  | cons x xs ih =>
    intro seen t h
    simp only [dedupByUri] at h
    split at h
    case isTrue hc =>
      rcases List.mem_cons.mp h with rfl | h2
      · rw [List.find?_cons_of_pos _ (by simp)]
      · have hne : ¬(x.uri = t.uri) := by
          intro he
          apply (dedupByUri_mem _ _ h2).1
          rw [← he]
          exact List.mem_cons_self _ _
        rw [List.find?_cons_of_neg _ (by simp [hne])]
        exact ih _ h2
    case isFalse hc =>
      have hmem := dedupByUri_mem _ _ h
      have hne : ¬(x.uri = t.uri) := by
        intro he
        rcases not_and_or.mp hc with hc1 | hc2
        · exact hmem.2 (by rw [← he]; exact not_not.mp hc1)
        · exact hmem.1 (by rw [← he]; exact not_not.mp hc2)
      rw [List.find?_cons_of_neg _ (by simp [hne])]
      exact ih _ h

theorem dedupByUri_append : ∀ (l1 l2 : List Track) (seen : List String),
    dedupByUri (l1 ++ l2) seen =
      ((dedupByUri l1 seen).1 ++ (dedupByUri l2 (dedupByUri l1 seen).2).1,
       (dedupByUri l2 (dedupByUri l1 seen).2).2) := by
  intro l1
  induction l1 with
  | nil => intro l2 seen; simp [dedupByUri]
  | cons x xs ih =>
    intro l2 seen
    simp only [List.cons_append, List.append_eq, dedupByUri]
    split
    case isTrue hc => rw [ih]; rfl
    case isFalse hc => rw [ih]

theorem albumPoolLoop_eq (env : SearchEnv) :
    ∀ (qs seenA seenU : List String),
      albumPoolLoop env qs seenA seenU =
        (dedupByUri (rawAlbumStream env qs seenA) seenU).1 := by
  intro qs
  induction qs with
  | nil => intro seenA seenU; simp [albumPoolLoop, rawAlbumStream, dedupByUri]
  | cons q rest ih =>
    intro seenA seenU
    cases henv : env.searchAlbums q with
    | nil =>
      simp only [albumPoolLoop, rawAlbumStream, henv]
      rw [dedupByUri_append, ih]
    | cons album albs =>
      simp only [albumPoolLoop, rawAlbumStream, henv]
      by_cases hid : album.id = "" ∨ album.id ∈ seenA
      · rw [if_pos hid, if_pos hid]
        exact ih _ _
      · rw [if_neg hid, if_neg hid, dedupByUri_append, ih]

theorem pyTake_subset (n : Int) (l : List α) : pyTake n l ⊆ l := by
  unfold pyTake
  split <;> exact List.take_subset _ _

theorem pyTake_sublist (n : Int) (l : List α) : (pyTake n l).Sublist l := by
  unfold pyTake
  split <;> exact List.take_sublist _ _

theorem score_tracks_perm (env : PrefEnv) (tracks : List Track) (prefs : Prefs) :
    (score_tracks env tracks prefs).Perm tracks := by
  unfold score_tracks
  split
  · exact List.Perm.refl _
  · split
    · exact List.Perm.refl _
    · split
      · exact List.Perm.refl _
      · exact List.perm_insertionSort _ _

/-- The reranked (scored or shuffled) pool is a permutation of the
deduplicated pool. -/
theorem build_track_pool_perm (env : SearchEnv) (queries : List String)
    (target : Int) :
    ∃ mid, mid.Perm ((dedupByUri (rawTrackResults env queries) []).1)
      ∧ build_track_pool env queries target = pyTake target mid := by
  unfold build_track_pool
  refine ⟨_, ?_, rfl⟩
  split
  · exact score_tracks_perm _ _ _
  · exact (env.shuffle _).prop

theorem build_track_pool_mem (env : SearchEnv) (queries : List String)
    (target : Int) {t : Track} (h : t ∈ build_track_pool env queries target) :
    t ∈ (dedupByUri (rawTrackResults env queries) []).1 := by
  obtain ⟨mid, hperm, heq⟩ := build_track_pool_perm env queries target
  rw [heq] at h
  exact hperm.subset (pyTake_subset _ _ h)

theorem build_track_pool_nodup (env : SearchEnv) (queries : List String)
    (target : Int) :
    ((build_track_pool env queries target).map Track.uri).Nodup := by
  obtain ⟨mid, hperm, heq⟩ := build_track_pool_perm env queries target
  rw [heq]
  have base := dedupByUri_nodup (rawTrackResults env queries) []
  have hmid : (mid.map Track.uri).Nodup := ((hperm.map Track.uri).nodup_iff).mpr base
  exact hmid.sublist ((pyTake_sublist target mid).map Track.uri)

theorem build_album_pool_mem (env : SearchEnv) (queries : List String)
    (target : Int) {t : Track} (h : t ∈ build_album_pool env queries target) :
    t ∈ (dedupByUri (rawAlbumStream env queries []) []).1 := by
  unfold build_album_pool at h
  have h2 := pyTake_subset _ _ h
  have h3 := (env.shuffle (albumPoolLoop env queries [] [])).prop.subset h2
  rwa [albumPoolLoop_eq] at h3

theorem build_album_pool_nodup (env : SearchEnv) (queries : List String)
    (target : Int) :
    ((build_album_pool env queries target).map Track.uri).Nodup := by
  unfold build_album_pool
  have base := dedupByUri_nodup (rawAlbumStream env queries []) []
  rw [← albumPoolLoop_eq env queries [] []] at base
  have hmid := (((env.shuffle (albumPoolLoop env queries [] [])).prop.map
    Track.uri).nodup_iff).mpr base
  exact hmid.sublist ((pyTake_sublist target _).map Track.uri)

/-! ### Supporting lemmas: the playback orchestrator and the session -/

theorem build_track_pool_uri_ne (env : SearchEnv) (queries : List String)
    (target : Int) {t : Track} (h : t ∈ build_track_pool env queries target) :
    t.uri ≠ "" :=
  (dedupByUri_mem _ _ (build_track_pool_mem env queries target h)).2

theorem build_album_pool_uri_ne (env : SearchEnv) (queries : List String)
    (target : Int) {t : Track} (h : t ∈ build_album_pool env queries target) :
    t.uri ≠ "" :=
  (dedupByUri_mem _ _ (build_album_pool_mem env queries target h)).2

theorem filterMap_uri_eq_map : ∀ (l : List Track), (∀ t ∈ l, t.uri ≠ "") →
    l.filterMap (fun t => if t.uri ≠ "" then some t.uri else none)
      = l.map (fun t => t.uri) := by
  intro l
  induction l with
  | nil => intro _; rfl
  | cons x xs ih =>
    intro h
    simp only [List.filterMap_cons, List.map_cons]
    rw [if_pos (h x (List.mem_cons_self _ _)),
      ih (fun t ht => h t (List.mem_cons_of_mem _ ht))]

/-- The three facts `search_and_play` guarantees about the session state:
the submitted queue avoids every URI already played, a successful call
appends exactly the submitted URIs to `played_uris`, and a failed call
leaves the state untouched. -/
theorem search_and_play_session (env : SearchEnv) (d : DJDirectives) (s : SpotState) :
    (∀ u ∈ (search_and_play env d s).2.1, u ∉ s.played_uris)
    ∧ ((search_and_play env d s).1.success = true →
        (search_and_play env d s).2.2.played_uris
          = s.played_uris ++ (search_and_play env d s).2.1)
    ∧ ((search_and_play env d s).1.success = false →
        (search_and_play env d s).2.2 = s) := by
  simp only [search_and_play]
  split
  · exact ⟨by simp, by simp, fun _ => rfl⟩
  · split
    · exact ⟨by simp, by simp, fun _ => rfl⟩
    · split
      · exact ⟨by simp, by simp, fun _ => rfl⟩
      · split
        case h_1 => exact ⟨by simp, by simp, fun _ => rfl⟩
        case h_2 first rest heq =>
          rw [heq]
          have hpool : ∀ t ∈ (if d.search_mode = "album" then
              build_album_pool env d.queries (clamp100 d.queue_size * 2)
            else build_track_pool env d.queries (clamp100 d.queue_size * 2)),
              t.uri ≠ "" := by
            intro t ht
            split at ht
            · exact build_album_pool_uri_ne _ _ _ ht
            · exact build_track_pool_uri_ne _ _ _ ht
          have hnb : ∀ t ∈ (first :: rest), t.uri ≠ "" := by
            intro t ht
            rw [← heq] at ht
            exact hpool t (List.mem_filter.mp (List.take_subset _ _ ht)).1
          have hqueue : ∀ u ∈ (first :: rest).map (fun t => t.uri),
              u ∉ s.played_uris := by
            intro u hu
            obtain ⟨t, ht, rfl⟩ := List.mem_map.mp hu
            rw [← heq] at ht
            have ht3 := List.mem_filter.mp (List.take_subset _ _ ht)
            simpa using ht3.2
          split
          case h_1 => exact ⟨hqueue, by simp, fun _ => rfl⟩
          case h_2 =>
            refine ⟨hqueue, fun _ => ?_, by simp⟩
            simp only []
            rw [filterMap_uri_eq_map _ hnb]

theorem runSession_avoids_played :
    ∀ (calls : List (SearchEnv × DJDirectives)) (s : SpotState) {u : String},
      u ∈ s.played_uris → ∀ (k : Nat) (o : Bool × List String),
        (runSession s calls)[k]? = some o → u ∉ o.2 := by
  intro calls
  induction calls with
  | nil => intro s u _ k o h; simp [runSession] at h
  | cons c rest ih =>
    obtain ⟨env, d⟩ := c
    intro s u hu k o h
    simp only [runSession] at h
    match k with
    | 0 =>
      rw [List.getElem?_cons_zero] at h
      obtain rfl := Option.some.inj h
      intro hmem
      exact (search_and_play_session env d s).1 u hmem hu
    | k + 1 =>
      rw [List.getElem?_cons_succ] at h
      refine ih _ ?_ k o h
      cases hsucc : (search_and_play env d s).1.success with
      | true =>
        rw [(search_and_play_session env d s).2.1 hsucc]
        exact List.mem_append_left _ hu
      | false =>
        rw [(search_and_play_session env d s).2.2 hsucc]
        exact hu

/-! ### Claims C5 and C10 -/

/-- C5: across sequential successful `search_and_play` calls in one
session, no later call's submitted queue contains a URI submitted by an
earlier successful call; each call filters out every URI already in
`played_uris` before truncation, and a successful call appends exactly its
submitted URIs to `played_uris`. -/
theorem C5_session_non_repetition :
    (∀ (calls : List (SearchEnv × DJDirectives)) (s0 : SpotState) (i j : Nat)
        (oi oj : Bool × List String) (u : String),
        i < j → (runSession s0 calls)[i]? = some oi → oi.1 = true → u ∈ oi.2 →
        (runSession s0 calls)[j]? = some oj → u ∉ oj.2)
    ∧ (∀ (env : SearchEnv) (d : DJDirectives) (s : SpotState),
        ∀ u ∈ (search_and_play env d s).2.1, u ∉ s.played_uris)
    ∧ (∀ (env : SearchEnv) (d : DJDirectives) (s : SpotState),
        (search_and_play env d s).1.success = true →
          (search_and_play env d s).2.2.played_uris
            = s.played_uris ++ (search_and_play env d s).2.1) := by
  refine ⟨?_, fun env d s => (search_and_play_session env d s).1,
    fun env d s => (search_and_play_session env d s).2.1⟩
  intro calls
  induction calls with
  | nil => intro s0 i j oi oj u hij hi _ _ _; simp [runSession] at hi
  | cons c rest ih =>
    obtain ⟨env, d⟩ := c
    intro s0 i j oi oj u hij hi hsucc hu hj
    simp only [runSession] at hi hj
    cases i with
    | zero =>
      cases j with
      | zero => exact absurd hij (lt_irrefl 0)
      | succ j =>
        rw [List.getElem?_cons_zero] at hi
        obtain rfl := Option.some.inj hi
        rw [List.getElem?_cons_succ] at hj
        have hu2 : u ∈ (search_and_play env d s0).2.2.played_uris := by
          rw [(search_and_play_session env d s0).2.1 hsucc]
          exact List.mem_append_right _ hu
        exact runSession_avoids_played rest _ hu2 j oj hj
    | succ i =>
      cases j with
      | zero => exact absurd hij (by omega)
      | succ j =>
        rw [List.getElem?_cons_succ] at hi hj
        exact ih _ i j oi oj u (Nat.lt_of_succ_lt_succ hij) hi hsucc hu hj

/-- C5 witness: a concrete two-call session in which the second queue
avoids the first call's track. -/
theorem C5_witness :
    (runSession s0State [(searchEnvA, directivesQ1), (searchEnvA, directivesQ1)])[0]?
        = some (true, ["spotify:track:a"])
    ∧ (runSession s0State [(searchEnvA, directivesQ1), (searchEnvA, directivesQ1)])[1]?
        = some (true, ["spotify:track:b"])
    ∧ "spotify:track:a" ∉ ["spotify:track:b"] :=
  ⟨by decide, by decide,
    C5_session_non_repetition.1 [(searchEnvA, directivesQ1), (searchEnvA, directivesQ1)]
      s0State 0 1 (true, ["spotify:track:a"]) (true, ["spotify:track:b"])
      "spotify:track:a" (by decide) (by decide) rfl (by decide) (by decide)⟩

/-- C10: if the final `start_playback` call raises, `search_and_play`
returns a failed `PlayResult` with a playback-error message and the session
state (last_queries, played_uris, preference store) is unchanged. -/
theorem C10_playback_failure_atomic :
    ∀ (env : SearchEnv) (d : DJDirectives) (s : SpotState)
      (r : PlayResult) (uris : List String) (s2 : SpotState) (e : String),
      search_and_play env d s = (r, uris, s2) → uris ≠ [] →
      env.playback uris = .error e →
      r = { success := false, message := "Playback error: " ++ e } ∧ s2 = s := by
  intro env d s r uris s2 e hrun hne hpb
  simp only [search_and_play] at hrun
  split at hrun
  · simp only [Prod.mk.injEq] at hrun
    exact absurd hrun.2.1.symm hne
  · split at hrun
    · simp only [Prod.mk.injEq] at hrun
      exact absurd hrun.2.1.symm hne
    · split at hrun
      · simp only [Prod.mk.injEq] at hrun
        exact absurd hrun.2.1.symm hne
      · split at hrun
        case h_1 =>
          simp only [Prod.mk.injEq] at hrun
          exact absurd hrun.2.1.symm hne
        case h_2 first rest heq2 =>
          split at hrun
          case h_1 e2 heqpb =>
            simp only [Prod.mk.injEq] at hrun
            obtain ⟨rfl, rfl, rfl⟩ := hrun
            rw [heqpb] at hpb
            obtain rfl := (Except.error.inj hpb)
            exact ⟨rfl, rfl⟩
          case h_2 a heqpb =>
            simp only [Prod.mk.injEq] at hrun
            obtain ⟨rfl, rfl, rfl⟩ := hrun
            rw [heqpb] at hpb
            exact Except.noConfusion hpb

/-- C10 witness: a concrete run in which the playback submission raises. -/
theorem C10_witness :
    (search_and_play searchEnvErr directivesQ1 s0State).1
        = { success := false, message := "Playback error: " ++ "boom" }
    ∧ (search_and_play searchEnvErr directivesQ1 s0State).2.2 = s0State :=
  C10_playback_failure_atomic searchEnvErr directivesQ1 s0State
    (search_and_play searchEnvErr directivesQ1 s0State).1
    (search_and_play searchEnvErr directivesQ1 s0State).2.1
    (search_and_play searchEnvErr directivesQ1 s0State).2.2 "boom"
    rfl (by decide) rfl

/-! ### Claims C6 and C7 -/

theorem zipWith_ext (f g : ℚ → ℚ → ℚ) (h : ∀ a b, f a b = g a b) :
    ∀ (xs ys : List ℚ), List.zipWith f xs ys = List.zipWith g xs ys := by
  intro xs
  induction xs with
  | nil => intro ys; rfl
  | cons x xs ih =>
    intro ys
    cases ys with
    | nil => rfl
    | cons y ys => simp [h, ih]

theorem update_centroid_reads_only_centroid (env : PrefEnv) (desc : String)
    (pos : Bool) (p q : Prefs) (h : p.taste_centroid = q.taste_centroid) :
    (update_centroid env desc pos p).taste_centroid
      = (update_centroid env desc pos q).taste_centroid := by
  cases he : env.embed desc <;> simp [update_centroid, he, h]
  cases q.taste_centroid <;> rfl

theorem record_like_centroid (env : PrefEnv) (t : CurrentTrack) (p : Prefs)
    (hl : env.learning = true) :
    (record_like env t p).taste_centroid
      = (update_centroid env (t.name ++ " by " ++ t.artist) true p).taste_centroid := by
  unfold record_like
  rw [hl]
  simp only [not_true, ite_false, Bool.false_eq_true, if_false]
  apply update_centroid_reads_only_centroid
  split <;> rfl

/-- C6: from an empty profile, the first `record_like` sets the centroid to
the liked track's embedding verbatim; the second moves it to
`0.9*v1 + 0.1*v2` elementwise; a negative update (`positive=False`) uses
`0.9*centroid - 0.05*v` instead. -/
theorem C6_centroid_ema :
    ∀ (env : PrefEnv) (t1 t2 : CurrentTrack) (v1 v2 : List ℚ) (p0 : Prefs),
      env.learning = true → p0.taste_centroid = none →
      env.embed (t1.name ++ " by " ++ t1.artist) = some v1 →
      env.embed (t2.name ++ " by " ++ t2.artist) = some v2 →
      (record_like env t1 p0).taste_centroid = some v1
      ∧ (record_like env t2 (record_like env t1 p0)).taste_centroid
          = some (List.zipWith (fun a b => 9/10 * a + 1/10 * b) v1 v2)
      ∧ (∀ (c v : List ℚ) (desc : String) (p : Prefs),
          p.taste_centroid = some c → env.embed desc = some v →
          (update_centroid env desc false p).taste_centroid
            = some (List.zipWith (fun a b => 9/10 * a - 1/20 * b) c v)) := by
  intro env t1 t2 v1 v2 p0 hl hc0 he1 he2
  have h1 : (record_like env t1 p0).taste_centroid = some v1 := by
    rw [record_like_centroid env t1 p0 hl]
    simp [update_centroid, he1, hc0]
  refine ⟨h1, ?_, ?_⟩
  · rw [record_like_centroid env t2 _ hl]
    simp [update_centroid, he2, h1]
  · intro c v desc p hpc hev
    simp [update_centroid, hev, hpc]
    exact zipWith_ext _ _ (fun a b => by ring) c v

/-- C6 witness: one-dimensional embeddings `v1 = [1]`, `v2 = [3]`. -/
theorem C6_witness :
    (record_like prefEnvC6 currentA emptyPrefs).taste_centroid = some [1]
    ∧ (record_like prefEnvC6 currentB
        (record_like prefEnvC6 currentA emptyPrefs)).taste_centroid
        = some (List.zipWith (fun a b => 9/10 * a + 1/10 * b) [1] [3]) :=
  ⟨(C6_centroid_ema prefEnvC6 currentA currentB [1] [3] emptyPrefs
      rfl rfl (by decide) (by decide)).1,
   (C6_centroid_ema prefEnvC6 currentA currentB [1] [3] emptyPrefs
      rfl rfl (by decide) (by decide)).2.1⟩

/-- C7: on a poll tick whose observed track id differs from the baseline,
`record_skip` fires on the previous track exactly when the elapsed time is
strictly below `SKIP_THRESHOLD`; at the threshold nothing fires; the
observed track always becomes the new baseline; and the very first
observation only records a baseline. -/
theorem C7_skip_threshold :
    ∀ (st : SkipState) (obs : CurrentTrack) (now t0 : ℚ) (i : String)
      (pt : CurrentTrack),
      st.current_id = some i → st.current_track = some pt →
      st.start_time = some t0 → obs.id ≠ some i →
      ((skip_check (some obs) now st).1 = some pt ↔ now - t0 < SKIP_THRESHOLD)
      ∧ (now - t0 = SKIP_THRESHOLD → (skip_check (some obs) now st).1 = none)
      ∧ (skip_check (some obs) now st).2
          = { current_id := obs.id, current_track := some obs, start_time := some now }
      ∧ (∀ (st2 : SkipState) (obs2 : CurrentTrack) (n2 : ℚ),
          st2.current_id = none →
          skip_check (some obs2) n2 st2
            = (none, { current_id := obs2.id, current_track := some obs2,
                       start_time := some n2 })) := by
  intro st obs now t0 i pt hid htr hst hne
  refine ⟨?_, ?_, ?_, ?_⟩
  · by_cases hlt : now - t0 < SKIP_THRESHOLD <;>
      simp [skip_check, hid, htr, hst, hne, hlt]
  · intro heqt
    have hlt : ¬(now - t0 < SKIP_THRESHOLD) := by rw [heqt]; exact lt_irrefl _
    simp [skip_check, hid, htr, hst, hne, hlt]
  · simp [skip_check, hid, htr, hst, hne]
  · intro st2 obs2 n2 h2
    simp [skip_check, h2]

/-- C7 witness: a track change 19 seconds in fires a skip on the previous
track. -/
theorem C7_witness :
    (skip_check (some currentB) 119 stC7).1 = some currentA :=
  ((C7_skip_threshold stC7 currentB 119 100 "a" currentA
      rfl rfl rfl (by decide)).1).mpr (by norm_num [SKIP_THRESHOLD])

/-! ### Claim C8: preference scoring -/

theorem filter_orderedInsert (key : Track → ℚ) (sc : ℚ) (x : Track) :
    ∀ l : List Track,
      (List.orderedInsert (fun a b => key a ≥ key b) x l).filter (fun t => key t = sc)
        = if key x = sc then x :: l.filter (fun t => key t = sc)
          else l.filter (fun t => key t = sc) := by
  intro l
  induction l with
  | nil =>
    by_cases hx : key x = sc <;> simp [List.orderedInsert, List.filter, hx]
  | cons y ys ih =>
    simp only [List.orderedInsert]
    by_cases hxy : key x ≥ key y
    · rw [if_pos hxy]
      by_cases hx : key x = sc <;> simp [List.filter_cons, hx]
    · rw [if_neg hxy]
      by_cases hy : key y = sc
      · have hx : ¬ key x = sc := by
          intro h
          apply hxy
          rw [h, hy]
        simp [List.filter_cons, hy, hx, ih]
      · simp [List.filter_cons, hy, ih]

theorem filter_insertionSort (key : Track → ℚ) (sc : ℚ) :
    ∀ l : List Track,
      (List.insertionSort (fun a b => key a ≥ key b) l).filter (fun t => key t = sc)
        = l.filter (fun t => key t = sc) := by
  intro l
  induction l with
  | nil => rfl
  | cons x xs ih =>
    simp only [List.insertionSort]
    rw [filter_orderedInsert key sc x]
    by_cases hx : key x = sc
    · rw [if_pos hx, ih]
      simp [List.filter_cons, hx]
    · rw [if_neg hx, ih]
      simp [List.filter_cons, hx]

/-- C8: with a non-empty centroid and learning enabled, `score_tracks` is
the stable descending sort of the input by the per-track score; the score
is `(cos(centroid, embed("name by artist")) + 1) / 2` (neutral `0.5` when
the embedding is unavailable), multiplied by exactly `0.3` when the primary
artist is in the skipped-artists set; the output is a permutation of the
input (no track is dropped), sorted descending, with ties keeping their
original relative order. -/
theorem C8_preference_scoring :
    ∀ (env : PrefEnv) (prefs : Prefs) (tracks : List Track) (c : List ℚ),
      env.learning = true → prefs.taste_centroid = some c → c ≠ [] →
      (score_tracks env tracks prefs
          = List.insertionSort (fun a b =>
              trackScore env c (prefs.skipped_artists.map (fun p => p.1)) a
                ≥ trackScore env c (prefs.skipped_artists.map (fun p => p.1)) b) tracks)
      ∧ (∀ t : Track,
          trackScore env c (prefs.skipped_artists.map (fun p => p.1)) t
            = (if t.primaryArtist ∈ prefs.skipped_artists.map (fun p => p.1)
                then (3 : ℚ)/10 else 1)
              * (match env.embed (t.name ++ " by " ++ t.primaryArtist) with
                 | some v => (cosine_similarity c v + 1) / 2
                 | none => (1 : ℚ)/2))
      ∧ (score_tracks env tracks prefs).Perm tracks
      ∧ (score_tracks env tracks prefs).Pairwise (fun a b =>
          trackScore env c (prefs.skipped_artists.map (fun p => p.1)) a
            ≥ trackScore env c (prefs.skipped_artists.map (fun p => p.1)) b)
      ∧ (∀ sc : ℚ,
          (score_tracks env tracks prefs).filter (fun t =>
              trackScore env c (prefs.skipped_artists.map (fun p => p.1)) t = sc)
            = tracks.filter (fun t =>
              trackScore env c (prefs.skipped_artists.map (fun p => p.1)) t = sc)) := by
  intro env prefs tracks c hl hc hcne
  have hsort : score_tracks env tracks prefs
      = List.insertionSort (fun a b =>
          trackScore env c (prefs.skipped_artists.map (fun p => p.1)) a
            ≥ trackScore env c (prefs.skipped_artists.map (fun p => p.1)) b) tracks := by
    cases c with
    | nil => exact absurd rfl hcne
    | cons c0 cs => simp [score_tracks, trackScore, hl, hc]
  refine ⟨hsort, ?_, score_tracks_perm env tracks prefs, ?_, ?_⟩
  · intro t
    unfold trackScore
    cases he : env.embed (t.name ++ " by " ++ t.primaryArtist) with
    | none =>
      by_cases hsk : t.primaryArtist ∈ prefs.skipped_artists.map (fun p => p.1) <;>
        simp [hsk, he] <;> ring
    | some v =>
      cases v with
      | nil =>
        by_cases hsk : t.primaryArtist ∈ prefs.skipped_artists.map (fun p => p.1) <;>
          simp [hsk, he, cosine_similarity] <;> ring
      | cons v0 vs =>
        by_cases hsk : t.primaryArtist ∈ prefs.skipped_artists.map (fun p => p.1) <;>
          simp [hsk, he] <;> ring
  · rw [hsort]
    haveI : IsTotal Track (fun a b =>
        trackScore env c (prefs.skipped_artists.map (fun p => p.1)) a
          ≥ trackScore env c (prefs.skipped_artists.map (fun p => p.1)) b) :=
      ⟨fun a b => le_total _ _⟩
    haveI : IsTrans Track (fun a b =>
        trackScore env c (prefs.skipped_artists.map (fun p => p.1)) a
          ≥ trackScore env c (prefs.skipped_artists.map (fun p => p.1)) b) :=
      ⟨fun _ _ _ hab hbc => le_trans hbc hab⟩
    exact List.sorted_insertionSort _ tracks
  · intro sc
    rw [hsort]
    exact filter_insertionSort _ sc tracks

/-- C8 witness: a two-track list against a one-dimensional centroid, with
one artist in the skipped set. -/
theorem C8_witness :
    trackScore prefEnvC8 [1] (prefsC8.skipped_artists.map (fun p => p.1)) trackA
      = (if Track.primaryArtist trackA ∈ prefsC8.skipped_artists.map (fun p => p.1)
          then (3 : ℚ)/10 else 1)
        * (match prefEnvC8.embed (trackA.name ++ " by " ++ Track.primaryArtist trackA) with
           | some v => (cosine_similarity [1] v + 1) / 2
           | none => (1 : ℚ)/2)
    ∧ (score_tracks prefEnvC8 [trackA, trackB] prefsC8).Perm [trackA, trackB] :=
  ⟨(C8_preference_scoring prefEnvC8 prefsC8 [trackA, trackB] [1]
      rfl rfl (by decide)).2.1 trackA,
   (C8_preference_scoring prefEnvC8 prefsC8 [trackA, trackB] [1]
      rfl rfl (by decide)).2.2.1⟩

/-! ### Claims C1, C2, C3: the query planner -/

theorem call_gemini_models_queries_ne :
    ∀ (ms : List String) (env : AIEnv) (prompt : Prompt) (d : DJDirectives),
      call_gemini_models env prompt ms = some d → d.queries ≠ [] := by
  intro ms
  induction ms with
  | nil => intro env prompt d h; simp [call_gemini_models] at h
  | cons m ms ih =>
    intro env prompt d h
    simp only [call_gemini_models] at h
    split at h
    · exact ih env prompt d h
    · exact ih env prompt d h
    · split at h
      · exact ih env prompt d h
      · obtain rfl := Option.some.inj h
        rename_i hq
        simpa [List.isEmpty_iff] using hq

set_option maxHeartbeats 1000000 in
theorem parse_local_response_queries_ne :
    ∀ (env : AIEnv) (text : String) (d : DJDirectives),
      parse_local_response env text = some d → d.queries ≠ [] := by
  intro env text d h
  simp only [parse_local_response] at h
  split at h
  · exact absurd h (by simp)
  · split at h
    · exact absurd h (by simp)
    · split at h
      · exact absurd h (by simp)
      · obtain rfl := Option.some.inj h
        rename_i hq
        simpa [List.isEmpty_iff] using hq

theorem call_local_llm_queries_ne :
    ∀ (env : AIEnv) (prompt : Prompt) (d : DJDirectives),
      call_local_llm env prompt = some d → d.queries ≠ [] := by
  intro env prompt d h
  simp only [call_local_llm] at h
  split at h
  · exact absurd h (by simp)
  · split at h
    · exact absurd h (by simp)
    · split at h
      · exact absurd h (by simp)
      · exact parse_local_response_queries_ne env _ d h

theorem call_ai_queries_ne :
    ∀ (env : AIEnv) (prompt : Prompt) (k : String) (lo : Bool) (d : DJDirectives),
      call_ai env prompt k lo = some d → d.queries ≠ [] := by
  intro env prompt k lo d h
  simp only [call_ai] at h
  split at h
  case h_1 d2 heq =>
    obtain rfl := Option.some.inj h
    split at heq
    · exact call_gemini_models_queries_ne CANDIDATE_MODELS env prompt d2 heq
    · exact absurd heq (by simp)
  case h_2 heq =>
    split at h
    · exact call_local_llm_queries_ne env prompt d h
    · exact absurd h (by simp)

theorem call_gemini_models_all_error (env : AIEnv) (prompt : Prompt)
    (h : ∀ m, ∃ e, env.geminiRaw m prompt = .error e) :
    ∀ ms, call_gemini_models env prompt ms = none := by
  intro ms
  induction ms with
  | nil => rfl
  | cons m ms ih =>
    obtain ⟨e, he⟩ := h m
    simp [call_gemini_models, he, ih]

theorem call_local_llm_all_error (env : AIEnv) (prompt : Prompt)
    (h : ∃ e, env.localRaw prompt = .error e) :
    call_local_llm env prompt = none := by
  obtain ⟨e, he⟩ := h
  simp [call_local_llm, he]

/-- C1: each of the three planner entry points always returns a
`DJDirectives` — every AI-backend outcome (including one where every
backend call raises) is absorbed, the AI answer is used when one tier
succeeds, and otherwise the deterministic fallback of that entry point is
returned; when every backend raises, the whole AI chain yields nothing. -/
theorem C1_planner_total_with_fallback :
    ∀ (env : AIEnv) (p k o : String) (lo : Bool) (prev : List String)
      (pts : List Track),
      ((∃ d, call_ai env (Prompt.initial p (build_preference_context env.prefs)) k lo
            = some d ∧ get_vibe_params env p k lo = d)
        ∨ get_vibe_params env p k lo
            = { reasoning := "All AI models unavailable. Using keyword fallback."
                queries := (keyword_fallback p).queries, queue_size := 40 })
      ∧ ((∃ d, call_ai env (Prompt.continueSession o
              (String.intercalate "\n" (prev.map (fun q => "  - " ++ q)))) k lo = some d
            ∧ get_continue_params env o prev k lo = { d with queue_size := 40 })
        ∨ get_continue_params env o prev k lo
            = { reasoning := "AI unavailable for continue. Repeating original queries."
                queries := prev, queue_size := 40 })
      ∧ ((∃ d prompt, call_ai env prompt k lo = some d
            ∧ get_playlist_vibe_params env pts p k lo = d)
        ∨ get_playlist_vibe_params env pts p k lo
            = { reasoning := "AI unavailable. Falling back to searching for playlist artists directly."
                queries := (env.shuffleArtists (dedupStrings
                  ((pts.filter (fun t => ¬t.artists.isEmpty)).map Track.primaryArtist))).take 8
                queue_size := 50 })
      ∧ ((∀ m pr, ∃ e, env.geminiRaw m pr = .error e) →
          (∀ pr, ∃ e, env.localRaw pr = .error e) →
          ∀ pr, call_ai env pr k lo = none) := by
  intro env p k o lo prev pts
  refine ⟨?_, ?_, ?_, ?_⟩
  · simp only [get_vibe_params]
    split
    case h_1 d hd => exact Or.inl ⟨d, hd, rfl⟩
    case h_2 => exact Or.inr rfl
  · simp only [get_continue_params]
    split
    case h_1 d hd => exact Or.inl ⟨d, hd, rfl⟩
    case h_2 => exact Or.inr rfl
  · simp only [get_playlist_vibe_params]
    split
    case h_1 d hd => exact Or.inl ⟨d, _, hd, rfl⟩
    case h_2 => exact Or.inr rfl
  · intro hg hl pr
    have h1 := call_gemini_models_all_error env pr (fun m => hg m pr) CANDIDATE_MODELS
    have h2 := call_local_llm_all_error env pr (hl pr)
    simp [call_ai, call_gemini, h1, h2]

/-- C1 witness: with every backend raising, the fresh-request planner
returns the keyword fallback. -/
theorem C1_witness :
    call_ai aiEnvFail (Prompt.initial "play jazz" "") "key" false = none
    ∧ get_vibe_params aiEnvFail "play jazz" "key" false
        = { reasoning := "All AI models unavailable. Using keyword fallback."
            queries := (keyword_fallback "play jazz").queries, queue_size := 40 } :=
  ⟨(C1_planner_total_with_fallback aiEnvFail "play jazz" "key" "" false [] []).2.2.2
      (fun _ _ => ⟨"quota", rfl⟩) (fun _ => ⟨"down", rfl⟩) (Prompt.initial "play jazz" ""),
   by decide⟩

/-- C2: with no API key and no local endpoint, a non-empty request yields
exactly one non-empty query — the stop-word-stripped request, or the
request verbatim when stripping empties it — and `queue_size = 40`. -/
theorem C2_keyword_fallback :
    ∀ (env : AIEnv) (p k : String) (lo : Bool),
      p ≠ "" → k = "" → env.localBaseUrl = "" →
      ∃ q, (get_vibe_params env p k lo).queries = [q]
        ∧ q ≠ ""
        ∧ q = (if String.intercalate " "
                  ((pySplitWs (pyLower p)).filter (fun w => w ∉ STOPWORDS)) = ""
               then p
               else String.intercalate " "
                  ((pySplitWs (pyLower p)).filter (fun w => w ∉ STOPWORDS)))
        ∧ (get_vibe_params env p k lo).queue_size = 40 := by
  intro env p k lo hp hk hb
  have hai : call_ai env (Prompt.initial p (build_preference_context env.prefs)) k lo
      = none := by
    simp [call_ai, hk, hb]
  have hv : get_vibe_params env p k lo
      = { reasoning := "All AI models unavailable. Using keyword fallback."
          queries := (keyword_fallback p).queries, queue_size := 40 } := by
    simp only [get_vibe_params]
    split
    case h_1 d hd => rw [hai] at hd; cases hd
    case h_2 => rfl
  refine ⟨pyOr (String.intercalate " "
    ((pySplitWs (pyLower p)).filter (fun w => w ∉ STOPWORDS))) p, ?_, ?_, ?_, ?_⟩
  · rw [hv]; rfl
  · unfold pyOr
    split
    case isTrue => exact hp
    case isFalse h => exact h
  · rfl
  · rw [hv]

/-- C2 witness: the request "play some jazz" strips to the single query
"jazz". -/
theorem C2_witness :
    (get_vibe_params aiEnvFail "play some jazz" "" false).queries = ["jazz"]
    ∧ ∃ q, (get_vibe_params aiEnvFail "play some jazz" "" false).queries = [q]
        ∧ q ≠ ""
        ∧ q = (if String.intercalate " "
                  ((pySplitWs (pyLower "play some jazz")).filter (fun w => w ∉ STOPWORDS)) = ""
               then "play some jazz"
               else String.intercalate " "
                  ((pySplitWs (pyLower "play some jazz")).filter (fun w => w ∉ STOPWORDS)))
        ∧ (get_vibe_params aiEnvFail "play some jazz" "" false).queue_size = 40 :=
  ⟨by decide, C2_keyword_fallback aiEnvFail "play some jazz" "" false (by decide) rfl rfl⟩

/-- C3 counterexample: with every AI tier failing and an empty
`previous_queries` list, the continuation planner returns an **empty**
`queries` list; moreover an AI answer whose only query is the empty string
is accepted, not rejected. -/
theorem C3_counterexample :
    (get_continue_params aiEnvFail "rock" [] "" false).queries = []
    ∧ call_ai aiEnvBlankQuery (Prompt.initial "x" "") "key" false
        = some { reasoning := "r", queries := [""], queue_size := 40 }
    ∧ ∀ q ∈ ({ reasoning := "r", queries := [""], queue_size := 40 }
        : DJDirectives).queries, q = "" :=
  ⟨by decide, by decide, by decide⟩

/-- C3 (amended): every `DJDirectives` returned by `get_vibe_params` has a
non-empty `queries` list, and any AI-tier result has a non-empty `queries`
list (an empty list is treated as failure); however the continuation
fallback returns `previous_queries` verbatim and the playlist fallback
returns the playlist's (up to 8 shuffled unique) artists, either of which
may be empty, and the acceptance check only tests list emptiness, not that
any query is a non-empty string. -/
theorem C3_amended_nonempty_queries :
    (∀ (env : AIEnv) (p k : String) (lo : Bool),
        (get_vibe_params env p k lo).queries ≠ [])
    ∧ (∀ (env : AIEnv) (prompt : Prompt) (k : String) (lo : Bool) (d : DJDirectives),
        call_ai env prompt k lo = some d → d.queries ≠ [])
    ∧ (∀ (env : AIEnv) (o : String) (prev : List String) (k : String) (lo : Bool),
        call_ai env (Prompt.continueSession o
            (String.intercalate "\n" (prev.map (fun q => "  - " ++ q)))) k lo = none →
        (get_continue_params env o prev k lo).queries = prev)
    ∧ (∀ (env : AIEnv) (pts : List Track) (p k : String) (lo : Bool),
        (∀ prompt, call_ai env prompt k lo = none) →
        (get_playlist_vibe_params env pts p k lo).queries
          = (env.shuffleArtists (dedupStrings
              ((pts.filter (fun t => ¬t.artists.isEmpty)).map Track.primaryArtist))).take 8) := by
  refine ⟨?_, call_ai_queries_ne, ?_, ?_⟩
  · intro env p k lo
    simp only [get_vibe_params]
    split
    case h_1 d hd => exact call_ai_queries_ne env _ k lo d hd
    case h_2 => simp [keyword_fallback]
  · intro env o prev k lo h
    simp only [get_continue_params]
    split
    case h_1 d hd => rw [h] at hd; cases hd
    case h_2 => rfl
  · intro env pts p k lo h
    simp only [get_playlist_vibe_params]
    split
    case h_1 d hd => rw [h _] at hd; cases hd
    case h_2 => rfl

/-- C3 witness: a successful AI tier indeed carries a non-empty query
list. -/
theorem C3_witness :
    call_ai aiEnvOk (Prompt.initial "x" "") "key" false
        = some { reasoning := "r", queries := ["jazz"], queue_size := 40 }
    ∧ ({ reasoning := "r", queries := ["jazz"], queue_size := 40 }
        : DJDirectives).queries ≠ [] :=
  ⟨by decide,
   C3_amended_nonempty_queries.2.1 aiEnvOk (Prompt.initial "x" "") "key" false _ (by decide)⟩


/-! ### Claims C4 and C9 -/

/-- C4: in track mode and album mode alike, the built pool contains each
URI at most once, and the track kept for a URI is the first occurrence of
that URI in the underlying concatenated raw results. -/
theorem C4_pool_dedup :
    ∀ (env : SearchEnv) (queries : List String) (target : Int),
      (((build_track_pool env queries target).map Track.uri).Nodup
        ∧ ∀ t ∈ build_track_pool env queries target,
            (rawTrackResults env queries).find? (fun s => s.uri = t.uri) = some t)
      ∧ (((build_album_pool env queries target).map Track.uri).Nodup
        ∧ ∀ t ∈ build_album_pool env queries target,
            (rawAlbumStream env queries []).find? (fun s => s.uri = t.uri) = some t) := by
  intro env queries target
  refine ⟨⟨build_track_pool_nodup env queries target, ?_⟩,
          build_album_pool_nodup env queries target, ?_⟩
  · intro t ht
    exact dedupByUri_find _ _ (build_track_pool_mem env queries target ht)
  · intro t ht
    exact dedupByUri_find _ _ (build_album_pool_mem env queries target ht)

/-- C4 witness: two queries whose raw results share URIs still produce a
duplicate-free pool keeping first occurrences. -/
theorem C4_witness :
    trackA ∈ build_track_pool searchEnvA ["q1", "q2"] 10
    ∧ (rawTrackResults searchEnvA ["q1", "q2"]).find?
        (fun s => s.uri = trackA.uri) = some trackA
    ∧ ((build_track_pool searchEnvA ["q1", "q2"] 10).map Track.uri).Nodup :=
  ⟨by decide,
   (C4_pool_dedup searchEnvA ["q1", "q2"] 10).1.2 trackA (by decide),
   (C4_pool_dedup searchEnvA ["q1", "q2"] 10).1.1⟩

theorem pyTake_nonneg (n : Int) (l : List α) (h : 0 ≤ n) :
    pyTake n l = l.take n.toNat := by
  unfold pyTake
  rw [if_pos h]

theorem pyTrunc_nonneg (q : ℚ) (h : 0 ≤ q) : pyTrunc q = ⌊q⌋ := by
  unfold pyTrunc
  rw [if_pos h]

set_option maxHeartbeats 1600000 in
/-- C9: with a playback device available, the mixed queue takes
`⌊queue_size·ratio⌋` playlist tracks and `queue_size − ⌊queue_size·ratio⌋`
search tracks (pool built at 3× that size, playlist URIs excluded, then
truncated) and strictly alternates playlist/search, draining the longer
remainder; with 2 playlist and 3 search tracks the order is
[playlist, search, playlist, search, search]. -/
theorem C9_mixed_interleave :
    ∀ (env : SearchEnv) (pts : List Track) (dir : DJDirectives) (ratio : ℚ)
      (s : SpotState) (r : PlayResult) (uris : List String) (s2 : SpotState)
      (dev : String),
      0 ≤ ratio → ratio ≤ 1 → env.device1 = some dev →
      search_and_play_mixed env pts dir ratio s = (r, uris, s2) →
      mixLoop
          ((env.shuffle pts).val.take
            (⌊((max 1 (min 200 dir.queue_size) : Int) : ℚ) * ratio⌋).toNat)
          (((build_track_pool env dir.queries
              ((max 1 (min 200 dir.queue_size)
                - ⌊((max 1 (min 200 dir.queue_size) : Int) : ℚ) * ratio⌋) * 3)).filter
              (fun t => t.uri ∉ pts.map (fun t => t.uri))).take
            (max 1 (min 200 dir.queue_size)
              - ⌊((max 1 (min 200 dir.queue_size) : Int) : ℚ) * ratio⌋).toNat) ≠ [] →
      (uris = (mixLoop
          ((env.shuffle pts).val.take
            (⌊((max 1 (min 200 dir.queue_size) : Int) : ℚ) * ratio⌋).toNat)
          (((build_track_pool env dir.queries
              ((max 1 (min 200 dir.queue_size)
                - ⌊((max 1 (min 200 dir.queue_size) : Int) : ℚ) * ratio⌋) * 3)).filter
              (fun t => t.uri ∉ pts.map (fun t => t.uri))).take
            (max 1 (min 200 dir.queue_size)
              - ⌊((max 1 (min 200 dir.queue_size) : Int) : ℚ) * ratio⌋).toNat)).map
        (fun t => t.uri))
      ∧ (∀ (p1 p2 s1 s2x s3 : Track),
          mixLoop [p1, p2] [s1, s2x, s3] = [p1, s1, p2, s2x, s3]) := by
  intro env pts dir ratio s r uris s2 dev h0 h1 hdev hrun hne
  have hqs1 : (1 : Int) ≤ max 1 (min 200 dir.queue_size) := le_max_left _ _
  have hqs0 : (0 : ℚ) ≤ ((max 1 (min 200 dir.queue_size) : Int) : ℚ) := by
    have h : (0 : Int) ≤ max 1 (min 200 dir.queue_size) := le_trans zero_le_one hqs1
    exact_mod_cast h
  have hq0 : (0 : ℚ) ≤ ((max 1 (min 200 dir.queue_size) : Int) : ℚ) * ratio :=
    mul_nonneg hqs0 h0
  have hfl0 : (0 : Int) ≤ ⌊((max 1 (min 200 dir.queue_size) : Int) : ℚ) * ratio⌋ :=
    Int.floor_nonneg.mpr hq0
  have hns0 : (0 : Int) ≤ max 1 (min 200 dir.queue_size)
      - ⌊((max 1 (min 200 dir.queue_size) : Int) : ℚ) * ratio⌋ := by
    have hle : ((max 1 (min 200 dir.queue_size) : Int) : ℚ) * ratio
        ≤ ((max 1 (min 200 dir.queue_size) : Int) : ℚ) :=
      mul_le_of_le_one_right hqs0 h1
    have h2 := Int.floor_le_floor hle
    rw [Int.floor_intCast] at h2
    omega
  simp only [search_and_play_mixed] at hrun
  rw [pyTrunc_nonneg _ hq0, pyTake_nonneg _ _ hfl0, pyTake_nonneg _ _ hns0] at hrun
  refine ⟨?_, fun p1 p2 s1 s2x s3 => rfl⟩
  split at hrun
  case h_1 heq => exact absurd heq hne
  case h_2 first rest heq =>
    split at hrun
    case h_1 heq2 =>
      rw [hdev] at heq2
      simp at heq2
    case h_2 dev2 heq2 =>
      split at hrun
      · simp only [Prod.mk.injEq] at hrun
        exact hrun.2.1.symm
      · simp only [Prod.mk.injEq] at hrun
        exact hrun.2.1.symm

set_option maxHeartbeats 1600000 in
/-- C9 witness: queue size 5 at ratio 1/2 gives 2 playlist + 3 search
tracks, interleaved as playlist, search, playlist, search, search. -/
theorem C9_witness :
    ((search_and_play_mixed searchEnvMix [trackP1, trackP2] directivesMix (1/2) s0State).2.1
        = (mixLoop
            ((searchEnvMix.shuffle [trackP1, trackP2]).val.take
              (⌊((max 1 (min 200 directivesMix.queue_size) : Int) : ℚ) * (1/2)⌋).toNat)
            (((build_track_pool searchEnvMix directivesMix.queries
                ((max 1 (min 200 directivesMix.queue_size)
                  - ⌊((max 1 (min 200 directivesMix.queue_size) : Int) : ℚ) * (1/2)⌋) * 3)).filter
                (fun t => t.uri ∉ [trackP1, trackP2].map (fun t => t.uri))).take
              (max 1 (min 200 directivesMix.queue_size)
                - ⌊((max 1 (min 200 directivesMix.queue_size) : Int) : ℚ) * (1/2)⌋).toNat)).map
          (fun t => t.uri))
    ∧ (search_and_play_mixed searchEnvMix [trackP1, trackP2] directivesMix (1/2) s0State).2.1
        = ["spotify:track:p1", "spotify:track:c", "spotify:track:p2",
           "spotify:track:d", "spotify:track:e"] := by
  have hfl : ⌊((max 1 (min 200 directivesMix.queue_size) : Int) : ℚ) * (1/2)⌋ = (2:Int) := by
    norm_num [directivesMix, Int.floor_eq_iff]
  have hne : mixLoop
      ((searchEnvMix.shuffle [trackP1, trackP2]).val.take
        (⌊((max 1 (min 200 directivesMix.queue_size) : Int) : ℚ) * (1/2)⌋).toNat)
      (((build_track_pool searchEnvMix directivesMix.queries
          ((max 1 (min 200 directivesMix.queue_size)
            - ⌊((max 1 (min 200 directivesMix.queue_size) : Int) : ℚ) * (1/2)⌋) * 3)).filter
          (fun t => t.uri ∉ [trackP1, trackP2].map (fun t => t.uri))).take
        (max 1 (min 200 directivesMix.queue_size)
          - ⌊((max 1 (min 200 directivesMix.queue_size) : Int) : ℚ) * (1/2)⌋).toNat) ≠ [] := by
    rw [hfl]
    decide
  have hmain := (C9_mixed_interleave searchEnvMix [trackP1, trackP2] directivesMix (1/2)
      s0State
      (search_and_play_mixed searchEnvMix [trackP1, trackP2] directivesMix (1/2) s0State).1
      (search_and_play_mixed searchEnvMix [trackP1, trackP2] directivesMix (1/2) s0State).2.1
      (search_and_play_mixed searchEnvMix [trackP1, trackP2] directivesMix (1/2) s0State).2.2
      "dev" (by norm_num) (by norm_num) rfl rfl hne).1
  refine ⟨hmain, ?_⟩
  rw [hmain, hfl]
  decide
